import Mathlib

/-!
Verification development for the oracle command-dispatch engine
(`oracle/client.py`, `oracle/utilities.py`).

The Python code is shallowly embedded: JSON values become the inductive
`JVal`, Python exceptions become the `PRes` result type (carrying a `PyErr`
exception class), mutation of the client's live alias table becomes explicit
state passing, and side effects observable in the claims (messages sent to
the invocation's channel, log records at error/warn/fatal level, deletion of
the invocation, closing the transport) are collected in result records.
External collaborators (the Discord transport, the filesystem, the regular
expression engine) are modelled by the minimal interfaces the code reads:
an invocation context exposing location names / issuer role names / author
identity, and a `RegexEngine` giving pattern validity and search results.
-/

/-- A JSON-like Python value as produced by `json.load`: `null`, booleans,
integers, strings, lists and string-keyed dicts. (Float literals do not occur
in the structures the claims are about and are not modelled.) -/
inductive JVal : Type where
  | null : JVal
  | bool : Bool → JVal
  | num : Int → JVal
  | str : String → JVal
  | list : List JVal → JVal
  | dict : List (String × JVal) → JVal
deriving Repr

/-- The Python exception classes raised by the code paths under study.
Exception messages are not modelled, only the class. -/
inductive PyErr : Type where
  | attributeError : PyErr
  | typeError : PyErr
  | keyError : PyErr
  | indexError : PyErr
deriving DecidableEq, Repr

/-- Result of a Python expression: a value, or a raised exception. -/
inductive PRes (α : Type) : Type where
  | ok : α → PRes α
  | exn : PyErr → PRes α
deriving Repr

/-- Python truthiness on JSON values: `None`, `False`, `0`, `""`, `[]` and
`{}` are falsy, everything else is truthy. -/
def truthy : JVal → Bool
  | .null => false
  | .bool b => b
  | .num n => n != 0
  | .str s => s != ""
  | .list xs => !xs.isEmpty
  | .dict xs => !xs.isEmpty

/-- First value stored under key `k` in a dict's entry list, `null` when the
key is absent (the `dict.get(k, None)` convention used throughout). -/
def dictGet : List (String × JVal) → String → JVal
  | [], _ => .null
  | (k', v) :: rest, k => if k' == k then v else dictGet rest k

/-- Does the dict entry list carry key `k` (Python `k in d`)? -/
def hasKey (xs : List (String × JVal)) (k : String) : Bool :=
  xs.any (fun kv => kv.1 == k)

/-- Python `obj.get(k, None)`: defined on dicts, raises `AttributeError` on
any other value. -/
def pyGet (obj : JVal) (k : String) : PRes JVal :=
  match obj with
  | .dict xs => .ok (dictGet xs k)
  | _ => .exn .attributeError

/-- Python `obj[k]` for a string key: on a dict a missing key raises
`KeyError`; any non-dict raises `TypeError`. -/
def pySub (obj : JVal) (k : String) : PRes JVal :=
  match obj with
  | .dict xs => if hasKey xs k then .ok (dictGet xs k) else .exn .keyError
  | _ => .exn .typeError

/-- Python iteration `for x in obj`: lists yield their elements, strings
yield their characters as one-character strings, dicts yield their keys, and
every other value raises `TypeError`. -/
def pyIter (obj : JVal) : PRes (List JVal) :=
  match obj with
  | .list xs => .ok xs
  | .str s => .ok (s.data.map (fun c => .str (String.mk [c])))
  | .dict xs => .ok (xs.map (fun kv => .str kv.1))
  | _ => .exn .typeError

/-- Sequentially evaluate `obj.get(k, None)` for each key, propagating the
first raised exception (the tuple comprehension in `get_default`). -/
def pyGetAll (obj : JVal) : List String → PRes (List JVal)
  | [] => .ok []
  | k :: ks =>
    match pyGet obj k with
    | .exn e => .exn e
    | .ok v =>
      match pyGetAll obj ks with
      | .exn e => .exn e
      | .ok vs => .ok (v :: vs)

/-- Embedding of `utilities.get_default(*items)`. The single-item branch of
the source executes `items.get(item, None)` where `items` is the argument
tuple; tuples have no `get` attribute, so calling `get_default` with exactly
one name raises `AttributeError` before any getter is returned. With any
other number of names it returns the tuple-building getter. -/
def get_default (items : List String) : PRes (JVal → PRes (List JVal)) :=
  if items.length == 1 then .exn .attributeError
  else .ok (fun obj => pyGetAll obj items)

/-- Python `str.lower()` restricted to the basic latin range handled by
`Char.toLower` (the alias and command strings the engine manipulates). -/
def pyLower (s : String) : String :=
  ⟨s.data.map Char.toLower⟩

/-- The substitution `re.compile(r"(?<!^)(?=[A-Z])").sub("_", s)`: insert an
underscore before every upper-case letter except at the start. -/
def camelSubAux : List Char → List Char
  | [] => []
  | c :: rest =>
    if c.isUpper then '_' :: c :: camelSubAux rest else c :: camelSubAux rest

/-- Apply the camel-case splitting pattern to a whole string: the first
character is never prefixed (the `(?<!^)` look-behind). -/
def camelSub (s : String) : String :=
  match s.data with
  | [] => ""
  | c :: rest => ⟨c :: camelSubAux rest⟩

/-- Whitespace tokenizer: Python `str.split()` with no argument, which drops
empty tokens. The accumulator holds the token being built. -/
def splitWsAux : List Char → List Char → List (List Char)
  | [], acc => if acc.isEmpty then [] else [acc]
  | c :: cs, acc =>
    if c.isWhitespace then
      if acc.isEmpty then splitWsAux cs [] else acc :: splitWsAux cs []
    else splitWsAux cs (acc ++ [c])

/-- Python `s.split()` on a string. -/
def pySplit (s : String) : List String :=
  (splitWsAux s.data []).map (fun cs => ⟨cs⟩)

/-- Python `s.startswith(p)`. -/
def pyStarts (s p : String) : Bool :=
  p.data.isPrefixOf s.data

/-- Python `s.removeprefix(p)`: drop `p` when it is a leading substring,
otherwise return `s` unchanged. -/
def pyRemoveMarker (s p : String) : String :=
  if pyStarts s p then ⟨s.data.drop p.data.length⟩ else s

mutual
/-- Python structural equality `==` on JSON values, as used by the collision
check `existing.get("resolve", None) == config.get("resolve", None)`.
Booleans compare equal to their numeric values (`True == 1`); dicts compare
by key set and pointwise value equality. -/
def jeq : JVal → JVal → Bool
  | .null, .null => true
  | .bool a, .bool b => a == b
  | .bool a, .num n => (if a then (1 : Int) else 0) == n
  | .num n, .bool b => n == (if b then (1 : Int) else 0)
  | .num a, .num b => a == b
  | .str a, .str b => a == b
  | .list as, .list bs => jeqList as bs
  | .dict as, .dict bs => as.length == bs.length && jeqDict as bs
  | _, _ => false

/-- Elementwise equality of two Python lists. -/
def jeqList : List JVal → List JVal → Bool
  | [], [] => true
  | a :: as, b :: bs => jeq a b && jeqList as bs
  | _, _ => false

/-- Every entry of the first dict is matched by an equal value under the
same key in the second (with equal sizes this is Python dict equality for
the duplicate-free dicts produced by `json.load`). -/
def jeqDict : List (String × JVal) → List (String × JVal) → Bool
  | [], _ => true
  | (k, v) :: rest, bs =>
    (if hasKey bs k then jeq v (dictGet bs k) else false) && jeqDict rest bs
end

/-- External regular-expression engine interface: `valid p` says whether
pattern `p` compiles (`re.search` raises on an invalid pattern), and
`search p s` is whether the compiled pattern matches anywhere in `s`. -/
structure RegexEngine : Type where
  valid : String → Bool
  search : String → String → Bool

/-- Invocation context, per the InvocationContext contract: the three
location-name projections read through `rgetattr` (`channel.category.name`,
`channel.name`, `channel.guild.name`), the issuer's role names
(`author.roles`), the author identity (`author.id`), and the two bits of
channel-category state read by `action_create_channel_in_category`. -/
structure Ctx : Type where
  categoryName : String
  channelName : String
  serverName : String
  roles : List String
  authorId : Int
  hasCategory : Bool
  categoryChannels : List String

/-- An incoming message: its raw content, whether it was sent inside a
server (`message.channel.guild`), and its invocation context. -/
structure Msg : Type where
  content : String
  inGuild : Bool
  ctx : Ctx

/-- Client configuration: the command marker (`self.prefix`), the
administrator id set, and the parsed JSON files found under the command
path (in `rglob` order), which `create_command_library` scans. -/
structure Cfg : Type where
  pfx : String
  administrators : List Int
  files : List JVal

/-- The live command table `self.command_lists`: an insertion-ordered dict
from lowercased alias to the candidate definition list. -/
abbrev AliasTable := List (String × List JVal)

/-- Dict lookup on the alias table (`alias in self.command_lists` /
`self.command_lists[alias]`). -/
def lookupTable (t : AliasTable) (k : String) : Option (List JVal) :=
  (t.find? (fun kv => kv.1 == k)).map (fun kv => kv.2)

/-- In-place replacement of one alias's candidate list
(`self.command_lists[alias].append(config)`). -/
def updateTable (t : AliasTable) (k : String) (v : List JVal) : AliasTable :=
  t.map (fun kv => if kv.1 == k then (kv.1, v) else kv)

/-- Logs plus the result of a resolver call: the resolver functions log at
error level and either return a boolean or raise. -/
structure RRes : Type where
  logs : List String
  val : PRes Bool
deriving Repr

/-- Embedding of `Client.cmd_resolve_block_location`. `get_default` is
called with three names, so the getter is built; the scope string is
lowercased and mapped to one of the three location projections; the
comparator dispatches on exact match or regex search, where any exception
from `re.search` (invalid pattern, or a non-string pattern) is caught,
logged and turned into `False`; unknown scopes and comparators are logged
and fail closed. A non-string scope would raise from `scope.lower()`. -/
def cmd_resolve_block_location (E : RegexEngine) (ctx : Ctx) (resolve : JVal) : RRes :=
  match get_default ["scope", "cmp", "name"] with
  | .exn e => ⟨[], .exn e⟩
  | .ok g =>
    match g resolve with
    | .exn e => ⟨[], .exn e⟩
    | .ok [scopeV, cmpV, nameV] =>
      match scopeV with
      | .str scopeS =>
        let low := pyLower scopeS
        let locationType : Option String :=
          if low == "category" then some "channel.category"
          else if low == "channel" then some "channel"
          else if low == "server" then some "channel.guild"
          else none
        match locationType with
        | none => ⟨["Unknown scope."], .ok false⟩
        | some lt =>
          let actualScope : String :=
            if lt == "channel.category" then ctx.categoryName
            else if lt == "channel" then ctx.channelName
            else ctx.serverName
          match cmpV with
          | .str c =>
            if c == "equals" || c == "exact" || c == "is" then
              ⟨[], .ok (match nameV with
                        | .str n => n == actualScope
                        | _ => false)⟩
            else if c == "expr" || c == "like" || c == "regex" then
              match nameV with
              | .str pat =>
                if E.valid pat then ⟨[], .ok (E.search pat actualScope)⟩
                else ⟨["Invalid regex."], .ok false⟩
              | _ => ⟨["Invalid regex."], .ok false⟩
            else ⟨["Unknown comparator."], .ok false⟩
          | _ => ⟨["Unknown comparator."], .ok false⟩
      | _ => ⟨[], .exn .attributeError⟩
    | .ok _ => ⟨[], .exn .typeError⟩

/-- Embedding of `Client.cmd_resolve_block_role`. The comparator semantics
mirror the location block but are evaluated over the issuer's role names;
the `try` wraps the whole `any(...)`, so with no roles the generator never
evaluates `re.search` and no exception can arise. -/
def cmd_resolve_block_role (E : RegexEngine) (ctx : Ctx) (resolve : JVal) : RRes :=
  match get_default ["cmp", "name"] with
  | .exn e => ⟨[], .exn e⟩
  | .ok g =>
    match g resolve with
    | .exn e => ⟨[], .exn e⟩
    | .ok [opV, nameV] =>
      match opV with
      | .str c =>
        if c == "equals" || c == "exact" || c == "is" then
          ⟨[], .ok (ctx.roles.any (fun r => match nameV with
                                            | .str n => n == r
                                            | _ => false))⟩
        else if c == "expr" || c == "like" || c == "regex" then
          match ctx.roles with
          | [] => ⟨[], .ok false⟩
          | _ =>
            match nameV with
            | .str pat =>
              if E.valid pat then ⟨[], .ok (ctx.roles.any (fun r => E.search pat r))⟩
              else ⟨["Invalid regex."], .ok false⟩
            | _ => ⟨["Invalid regex."], .ok false⟩
        else ⟨["Unknown comparator."], .ok false⟩
      | _ => ⟨["Unknown comparator."], .ok false⟩
    | .ok _ => ⟨[], .exn .typeError⟩

/-- Size of the value stored under a key is below the size of the dict. -/
theorem sizeOf_dictGet_lt (xs : List (String × JVal)) (k : String) :
    sizeOf (dictGet xs k) < 1 + sizeOf xs := by
  induction xs with
  | nil => simp [dictGet]
  | cons kv rest ih =>
    obtain ⟨k', v⟩ := kv
    simp only [dictGet]
    split
    · simp only [List.cons.sizeOf_spec, Prod.mk.sizeOf_spec]
      omega
    · simp only [List.cons.sizeOf_spec, Prod.mk.sizeOf_spec]
      omega

mutual
/-- Embedding of `Client.cmd_resolve_recursive(context, resolve, op)`.
A list dispatches on the active combinator (`and` = all, `or` = any,
`not` = not any), an unknown list operator logs and fails closed. A dict
reads its `and`/`or`/`not` entries through a three-name `get_default`;
exactly one truthy entry recurses with that operator, more than one logs
the ambiguity and fails closed, and none falls through to leaf handling —
where the source calls `get_default("type")`, whose single-name branch
raises `AttributeError`; the leaf-type dispatch below that call is kept
as written but is unreachable. Any other value reaches `resolve.get(...)`
via the three-name getter, which raises `AttributeError` on a non-dict. -/
def cmd_resolve_recursive (E : RegexEngine) (ctx : Ctx) (resolve : JVal)
    (op : Option String) : RRes :=
  match resolve with
  | .list rs =>
    match op with
    | some o =>
      if o == "and" then resolveAll E ctx rs
      else if o == "or" then resolveAny E ctx rs
      else if o == "not" then
        match resolveAny E ctx rs with
        | ⟨logs, .ok b⟩ => ⟨logs, .ok (!b)⟩
        | r => r
      else ⟨["Unknown list operator."], .ok false⟩
    | none => ⟨["Unknown list operator."], .ok false⟩
  | .dict xs =>
    match get_default ["and", "or", "not"] with
    | .exn e => ⟨[], .exn e⟩
    | .ok g =>
      match g (.dict xs) with
      | .exn e => ⟨[], .exn e⟩
      | .ok vals =>
        match vals with
        | [av, ov, nv] =>
          let cnt := (if truthy av then 1 else 0) + (if truthy ov then 1 else 0)
            + (if truthy nv then 1 else 0)
          if cnt > 1 then ⟨["Ambiguous resolver block: too many operators!"], .ok false⟩
          else if truthy av then
            cmd_resolve_recursive E ctx (dictGet xs "and") (some "and")
          else if truthy ov then
            cmd_resolve_recursive E ctx (dictGet xs "or") (some "or")
          else if truthy nv then
            cmd_resolve_recursive E ctx (dictGet xs "not") (some "not")
          else
            match get_default ["type"] with
            | .exn e => ⟨[], .exn e⟩
            | .ok g2 =>
              match g2 (.dict xs) with
              | .exn e => ⟨[], .exn e⟩
              | .ok [handler] =>
                match handler with
                | .str "location" => cmd_resolve_block_location E ctx (.dict xs)
                | .str "role" => cmd_resolve_block_role E ctx (.dict xs)
                | _ => ⟨["Unknown resolver leaf type."], .ok false⟩
              | .ok _ => ⟨[], .exn .typeError⟩
        | _ => ⟨[], .exn .typeError⟩
  | _ => ⟨[], .exn .attributeError⟩
termination_by sizeOf resolve
decreasing_by
  all_goals simp_wf
  all_goals
    first
    | exact Nat.lt_add_right _ (sizeOf_dictGet_lt xs _)
    | (have h : sizeOf (dictGet xs "and") < 1 + sizeOf xs := sizeOf_dictGet_lt xs "and"
       omega)
    | (have h : sizeOf (dictGet xs "or") < 1 + sizeOf xs := sizeOf_dictGet_lt xs "or"
       omega)
    | (have h : sizeOf (dictGet xs "not") < 1 + sizeOf xs := sizeOf_dictGet_lt xs "not"
       omega)

/-- Python `all(gen)` over child resolutions: evaluate left to right,
short-circuit on the first `False`, propagate the first exception. -/
def resolveAll (E : RegexEngine) (ctx : Ctx) : List JVal → RRes
  | [] => ⟨[], .ok true⟩
  | r :: rest =>
    match cmd_resolve_recursive E ctx r none with
    | ⟨logs, .ok true⟩ =>
      let t := resolveAll E ctx rest
      ⟨logs ++ t.logs, t.val⟩
    | ⟨logs, .ok false⟩ => ⟨logs, .ok false⟩
    | ⟨logs, .exn e⟩ => ⟨logs, .exn e⟩
termination_by rs => sizeOf rs

/-- Python `any(gen)` over child resolutions: evaluate left to right,
short-circuit on the first `True`, propagate the first exception. -/
def resolveAny (E : RegexEngine) (ctx : Ctx) : List JVal → RRes
  | [] => ⟨[], .ok false⟩
  | r :: rest =>
    match cmd_resolve_recursive E ctx r none with
    | ⟨logs, .ok false⟩ =>
      let t := resolveAny E ctx rest
      ⟨logs ++ t.logs, t.val⟩
    | ⟨logs, .ok true⟩ => ⟨logs, .ok true⟩
    | ⟨logs, .exn e⟩ => ⟨logs, .exn e⟩
termination_by rs => sizeOf rs
end

/-- Embedding of `Client.cmd_resolve_context(context, candidate)`. The very
first statement is `utilities.get_default("resolve")(candidate)`, and the
single-name `get_default` raises `AttributeError`, so the function raises
for every candidate. The remainder of the source (absent policy matches
everywhere, a non-dict top level logs and fails closed, the spurious
top-level `not` log, the recursive evaluation) is kept as written under the
unreachable success branch. -/
def cmd_resolve_context (E : RegexEngine) (ctx : Ctx) (candidate : JVal) : RRes :=
  match get_default ["resolve"] with
  | .exn e => ⟨[], .exn e⟩
  | .ok g =>
    match g candidate with
    | .exn e => ⟨[], .exn e⟩
    | .ok [resolveV] =>
      if !truthy resolveV then ⟨[], .ok true⟩
      else
        match resolveV with
        | .dict xs =>
          let topLog : List String :=
            if !hasKey xs "and" && !hasKey xs "or" && hasKey xs "not" then
              ["Top level resolver must be 'and', 'or' or 'not'."]
            else []
          let r := cmd_resolve_recursive E ctx (.dict xs) none
          ⟨topLog ++ r.logs, r.val⟩
        | _ => ⟨["Top level resolver must be a dictionary."], .ok false⟩
    | .ok _ => ⟨[], .exn .typeError⟩

/-- State built up by `create_command_library`: the table under
construction (`self.command_lists`, reset to `{}` on entry) and the
collision flag. -/
structure BuildSt : Type where
  table : AliasTable
  collision : Bool
deriving Repr

/-- Fold a step over a list, stopping at the first raised exception while
keeping the state reached so far (Python statement sequencing: an exception
leaves prior mutations in place). -/
def foldE {σ α : Type} (f : σ → α → σ × Option PyErr) : σ → List α → σ × Option PyErr
  | s, [] => (s, none)
  | s, a :: as =>
    match f s a with
    | (s', none) => foldE f s' as
    | (s', some e) => (s', some e)

/-- Python `any(existing.get("resolve", None) == newR for existing in cs)`:
short-circuit on the first equal tree, propagate exceptions. -/
def anyJeqResolve (cs : List JVal) (newR : JVal) : PRes Bool :=
  match cs with
  | [] => .ok false
  | c :: rest =>
    match pyGet c "resolve" with
    | .exn e => .exn e
    | .ok r => if jeq r newR then .ok true else anyJeqResolve rest newR

/-- One alias insertion from the inner loop of `create_command_library`:
lowercase the alias (raising on a non-string), create a singleton candidate
list for a fresh alias, and for a seen alias either append the definition
(structurally distinct `resolve`) or set the collision flag (structurally
identical `resolve`, including both absent). -/
def insertAlias (st : BuildSt) (config : JVal) (aliasV : JVal) : BuildSt × Option PyErr :=
  match aliasV with
  | .str s =>
    let low := pyLower s
    match lookupTable st.table low with
    | none => ({ st with table := st.table ++ [(low, [config])] }, none)
    | some existing =>
      match pyGet config "resolve" with
      | .exn e => (st, some e)
      | .ok newR =>
        match anyJeqResolve existing newR with
        | .exn e => (st, some e)
        | .ok true => ({ st with collision := true }, none)
        | .ok false =>
          ({ st with table := updateTable st.table low (existing ++ [config]) }, none)
  | _ => (st, some .attributeError)

/-- One definition from the middle loop of `create_command_library`:
subscript `config["aliases"]` (KeyError when absent, TypeError on a
non-dict) and iterate over the aliases. -/
def processConfig (st : BuildSt) (config : JVal) : BuildSt × Option PyErr :=
  match pySub config "aliases" with
  | .exn e => (st, some e)
  | .ok aliases =>
    match pyIter aliases with
    | .exn e => (st, some e)
    | .ok as => foldE (fun s a => insertAlias s config a) st as

/-- One parsed JSON file from the outer loop of `create_command_library`:
a dict is wrapped into a one-element list, anything else is iterated. -/
def processFile (st : BuildSt) (v : JVal) : BuildSt × Option PyErr :=
  match v with
  | .dict xs => processConfig st (.dict xs)
  | _ =>
    match pyIter v with
    | .exn e => (st, some e)
    | .ok cs => foldE processConfig st cs

/-- Embedding of `Client.create_command_library`. The previous value of
`self.command_lists` is discarded unconditionally (`self.command_lists = {}`
is the first statement); the scan then populates the fresh table in place.
A true collision only sets the flag and logs at fatal level — the function
neither raises nor restores the previous table. An exception during the scan
leaves the partially built table live. -/
def create_command_library (files : List JVal) : BuildSt × Option PyErr :=
  foldE processFile ⟨[], false⟩ files

/-- The load-outcome log line: the fatal collision report, or the success
report. -/
def libraryLog (bst : BuildSt) : String :=
  if bst.collision then
    "Resolve naming collisions; overlapping commands might result in undefined behaviour."
  else "Loaded commands successfully."

/-- Result of running one action handler: the (possibly mutated) live
table, messages sent to the channel, log records, whether the transport was
closed, and the handler's return value or exception. -/
structure ARes : Type where
  table : AliasTable
  sends : List JVal
  logs : List String
  closed : Bool
  ret : PRes JVal
deriving Repr

/-- The embed sent by `action__no_permission`. -/
def noPermissionEmbed : JVal :=
  .dict [("description", .str ":x: You do not have the necessary permissions.")]

/-- Embedding of `Client.action__no_permission`: send the denial embed and
return `False`. -/
def action__no_permission (table : AliasTable) : ARes :=
  ⟨table, [noPermissionEmbed], [], false, .ok (.bool false)⟩

/-- Embedding of `Client.action__no_such_action`: log the unmatched action
name at error level and return `False`. -/
def action__no_such_action (table : AliasTable) : ARes :=
  ⟨table, [], ["No such action!"], false, .ok (.bool false)⟩

/-- Embedding of `Client.action_lockdown`. A non-administrator gets the
denial embed, a warning is logged, and the handler returns `None` (a bare
`return`). An administrator reaches
`for k in self.command_lists: if k != "reload": self.command_lists.remove(k)`
— dicts have no `remove` attribute, so the first key other than `"reload"`
raises `AttributeError` with the table untouched; only a table whose every
key is `"reload"` completes the loop, logs the lockdown warning and returns
`True` (still without removing anything). -/
def action_lockdown (cfg : Cfg) (table : AliasTable) (msg : Msg) : ARes :=
  if !(cfg.administrators.contains msg.ctx.authorId) then
    ⟨table, [noPermissionEmbed], ["User tried to lockdown."], false, .ok .null⟩
  else
    match table.find? (fun kv => kv.1 != "reload") with
    | some _ => ⟨table, [], [], false, .exn .attributeError⟩
    | none => ⟨table, [], ["Lockdown; reload to unpause."], false, .ok (.bool true)⟩

/-- Embedding of `Client.action_shutdown`: administrator-gated close of the
transport. -/
def action_shutdown (cfg : Cfg) (table : AliasTable) (msg : Msg) : ARes :=
  if !(cfg.administrators.contains msg.ctx.authorId) then
    ⟨table, [noPermissionEmbed], ["User tried to shutdown."], false, .ok .null⟩
  else
    ⟨table, [], [], true, .ok (.bool true)⟩

/-- Embedding of `Client.action_reload`: administrator-gated rerun of
`create_command_library`. The freshly built table replaces the live one
whatever the collision flag says; a scan exception leaves the partial table
live and propagates; on a completed scan the handler returns `True`. -/
def action_reload (cfg : Cfg) (table : AliasTable) (msg : Msg) : ARes :=
  if !(cfg.administrators.contains msg.ctx.authorId) then
    ⟨table, [noPermissionEmbed], ["User tried to reload."], false, .ok .null⟩
  else
    let warnLog := "Reloading the command library while live!"
    match create_command_library cfg.files with
    | (bst, none) => ⟨bst.table, [], [warnLog, libraryLog bst], false, .ok (.bool true)⟩
    | (bst, some e) => ⟨bst.table, [], [warnLog], false, .exn e⟩

/-- Embedding of `Client.action_create_channel_in_category`. The channel
creation, permission copying and sorting moves are external transport
operations and are not tracked; the control flow (warn-and-return-`None`
outside a category, the duplicate-name skip, the bare `return` — that is,
`None` — when `sort_category` is falsy, `True` after sorting) is kept. -/
def action_create_channel_in_category (table : AliasTable) (msg : Msg)
    (args : JVal) : ARes :=
  if !msg.ctx.hasCategory then
    ⟨table, [], ["You cannot call this in a channel with no parent category!"],
      false, .ok .null⟩
  else
    match get_default ["name", "duplicate", "sort_category"] with
    | .exn e => ⟨table, [], [], false, .exn e⟩
    | .ok g =>
      match g args with
      | .exn e => ⟨table, [], [], false, .exn e⟩
      | .ok [nameV, dupV, sortV] =>
        if truthy dupV && msg.ctx.categoryChannels.any (fun ch => match nameV with
                                                                  | .str n => n == ch
                                                                  | _ => false) then
          ⟨table, [], [], false, .ok .null⟩
        else if !truthy sortV then
          ⟨table, [], ["Created channel."], false, .ok .null⟩
        else
          ⟨table, [], ["Created channel."], false, .ok (.bool true)⟩
      | .ok _ => ⟨table, [], [], false, .exn .typeError⟩

/-- Embedding of `Client.cmd_translate_action_key`: prepend `action_` to the
lowercased, underscore-separated form of the JSON action name. `re.sub`
raises `TypeError` on a non-string. -/
def cmd_translate_action_key (actionKey : JVal) : PRes String :=
  match actionKey with
  | .str s => .ok ("action_" ++ pyLower (camelSub s))
  | _ => .exn .typeError

/-- The dynamic dispatch
`getattr(self, function_name, "action__no_such_action")(action_key, msg, args)`.
The client owns exactly six `action_*` methods; for any other computed name
`getattr` returns the default — which here is the *string*
`"action__no_such_action"`, not the method — and calling a string raises
`TypeError`. The intended default handler is reachable only by naming it. -/
def call_action (cfg : Cfg) (table : AliasTable) (msg : Msg)
    (functionName : String) (args : JVal) : ARes :=
  if functionName == "action__no_permission" then action__no_permission table
  else if functionName == "action__no_such_action" then action__no_such_action table
  else if functionName == "action_create_channel_in_category" then
    action_create_channel_in_category table msg args
  else if functionName == "action_lockdown" then action_lockdown cfg table msg
  else if functionName == "action_shutdown" then action_shutdown cfg table msg
  else if functionName == "action_reload" then action_reload cfg table msg
  else ⟨table, [], [], false, .exn .typeError⟩

/-- Result of running an action list: accumulated effects and the pipeline
verdict (or the exception that aborted the loop). -/
structure ERes : Type where
  table : AliasTable
  sends : List JVal
  logs : List String
  closed : Bool
  res : PRes Bool
deriving Repr

/-- The action loop of `cmd_execute_actions`: read `name`/`args` from each
action dict, translate the name, dispatch the handler, collect its status,
and propagate the first exception with all effects produced so far. At the
end the verdict is `all(s for s in statuses)`. -/
def execLoop (cfg : Cfg) (table : AliasTable) (msg : Msg) (sends : List JVal)
    (logs : List String) (closed : Bool) (statuses : List JVal) :
    List JVal → ERes
  | [] => ⟨table, sends, logs, closed, .ok (statuses.all truthy)⟩
  | a :: rest =>
    match get_default ["name", "args"] with
    | .exn e => ⟨table, sends, logs, closed, .exn e⟩
    | .ok g =>
      match g a with
      | .exn e => ⟨table, sends, logs, closed, .exn e⟩
      | .ok [nameV, argsV] =>
        match cmd_translate_action_key nameV with
        | .exn e => ⟨table, sends, logs, closed, .exn e⟩
        | .ok fname =>
          let h := call_action cfg table msg fname argsV
          match h.ret with
          | .exn e => ⟨h.table, sends ++ h.sends, logs ++ h.logs,
              closed || h.closed, .exn e⟩
          | .ok status =>
            execLoop cfg h.table msg (sends ++ h.sends) (logs ++ h.logs)
              (closed || h.closed) (statuses ++ [status]) rest
      | .ok _ => ⟨table, sends, logs, closed, .exn .typeError⟩

/-- Embedding of `Client.cmd_execute_actions`: a falsy action list (absent
or empty) is vacuously successful; otherwise the list is iterated and the
verdict is the conjunction of every status's truthiness. -/
def cmd_execute_actions (cfg : Cfg) (table : AliasTable) (msg : Msg)
    (actions : JVal) : ERes :=
  if !truthy actions then ⟨table, [], [], false, .ok true⟩
  else
    match pyIter actions with
    | .exn e => ⟨table, [], [], false, .exn e⟩
    | .ok as => execLoop cfg table msg [] [] false [] as

/-- Result of `cmd_find_correct`: its logs and either the unique resolved
candidate (`None` for zero or ambiguous) or a propagated exception. -/
structure FRes : Type where
  logs : List String
  res : PRes (Option JVal)
deriving Repr

/-- The list comprehension filtering candidates through
`cmd_resolve_context`, left to right, propagating the first exception. -/
def filterValid (E : RegexEngine) (ctx : Ctx) :
    List JVal → List String × PRes (List JVal)
  | [] => ([], .ok [])
  | c :: cs =>
    match cmd_resolve_context E ctx c with
    | ⟨logs, .exn e⟩ => (logs, .exn e)
    | ⟨logs, .ok b⟩ =>
      match filterValid E ctx cs with
      | (logs2, .exn e) => (logs ++ logs2, .exn e)
      | (logs2, .ok vs) => (logs ++ logs2, .ok (if b then c :: vs else vs))

/-- Embedding of `Client.cmd_find_correct`. Zero valid candidates give
`None`, one gives that candidate; two or more log the ambiguity and then
evaluate `msg.send(...)` — `discord.Message` has no `send` attribute, so the
generic notice is never actually delivered and `AttributeError` is raised
instead. -/
def cmd_find_correct (E : RegexEngine) (ctx : Ctx) (candidates : List JVal) : FRes :=
  match filterValid E ctx candidates with
  | (logs, .exn e) => ⟨logs, .exn e⟩
  | (logs, .ok vs) =>
    match vs with
    | [] => ⟨logs, .ok none⟩
    | [c] => ⟨logs, .ok (some c)⟩
    | _ => ⟨logs ++ ["Ambiguous command."], .exn .attributeError⟩

/-- Embedding of `Client.cmd_send_response`, reduced to its observable
interface: the three-name `get_default` getter raises on a non-dict (in
particular on an absent response, which is `None`); otherwise the rendered
response — attachment loading, embed construction and prefix substitution
are external transport work — is delivered to the channel as one send. -/
def cmd_send_response (response : JVal) : List JVal × Option PyErr :=
  match get_default ["type", "attachments", "content"] with
  | .exn e => ([], some e)
  | .ok g =>
    match g response with
    | .exn e => ([], some e)
    | .ok _ => ([response], none)

/-- The command-line parse on line 499 of the source:
`message.content.lower().removeprefix(self.prefix).split()`. -/
def parse_cmd_array (pfxS content : String) : List String :=
  pySplit (pyRemoveMarker (pyLower content) pfxS)

/-- Everything `on_message` does that an invocation can observe: the live
table afterwards, channel sends, logs, whether the original message was
deleted, whether the transport was closed, and an escaped exception if any. -/
structure DOut : Type where
  table : AliasTable
  sends : List JVal
  logs : List String
  deleted : Bool
  closed : Bool
  err : Option PyErr
deriving Repr

/-- Embedding of `Client.on_message`. Messages outside a guild or without
the command marker are ignored; an empty command line raises `IndexError`
at `cmd_array[0]`; an alias missing from the table is silently ignored; a
falsy resolution result (`None`, and also a falsy candidate) is silently
ignored; otherwise the actions run, the response is sent only on a `True`
verdict, and the original message is deleted last. Exceptions escaping any
step abort the handler with the effects produced so far and no deletion. -/
def on_message (cfg : Cfg) (E : RegexEngine) (table : AliasTable) (msg : Msg) : DOut :=
  if !msg.inGuild then ⟨table, [], [], false, false, none⟩
  else if !pyStarts (pyLower msg.content) cfg.pfx then
    ⟨table, [], [], false, false, none⟩
  else
    match parse_cmd_array cfg.pfx msg.content with
    | [] => ⟨table, [], [], false, false, some .indexError⟩
    | cmd :: _args =>
      match lookupTable table cmd with
      | none => ⟨table, [], [], false, false, none⟩
      | some candidates =>
        match cmd_find_correct E msg.ctx candidates with
        | ⟨logs, .exn e⟩ => ⟨table, [], logs, false, false, some e⟩
        | ⟨logs, .ok execConfigO⟩ =>
          let execConfig := match execConfigO with
                            | none => JVal.null
                            | some c => c
          if !truthy execConfig then ⟨table, [], logs, false, false, none⟩
          else
            match get_default ["response", "actions"] with
            | .exn e => ⟨table, [], logs, false, false, some e⟩
            | .ok g =>
              match g execConfig with
              | .exn e => ⟨table, [], logs, false, false, some e⟩
              | .ok [response, actions] =>
                let ex := cmd_execute_actions cfg table msg actions
                match ex.res with
                | .exn e =>
                  ⟨ex.table, ex.sends, logs ++ ex.logs, false, ex.closed, some e⟩
                | .ok verdict =>
                  if verdict then
                    match cmd_send_response response with
                    | (sent, some e) =>
                      ⟨ex.table, ex.sends ++ sent, logs ++ ex.logs, false,
                        ex.closed, some e⟩
                    | (sent, none) =>
                      ⟨ex.table, ex.sends ++ sent, logs ++ ex.logs, true,
                        ex.closed, none⟩
                  else
                    ⟨ex.table, ex.sends, logs ++ ex.logs, true, ex.closed, none⟩
              | .ok _ => ⟨table, [], logs, false, false, some .typeError⟩

/-- A regex engine on which every pattern is invalid (used to instantiate
engine-polymorphic statements at a concrete engine). -/
def E0 : RegexEngine := ⟨fun _ => false, fun _ _ => false⟩

/-- A context whose author is administrator id 1. -/
def ctxAdmin : Ctx := ⟨"cat", "chan", "srv", ["everyone"], 1, true, []⟩

/-- A context whose author (id 2) is not an administrator and holds only the
everyone role. -/
def ctxUser : Ctx := ⟨"cat", "chan", "srv", ["everyone"], 2, true, []⟩

/-- A guild message with the given content and context. -/
def msgOf (content : String) (c : Ctx) : Msg := ⟨content, true, c⟩

/-- A command definition for alias `ping` with a simple response, no
`resolve` tree and no actions. -/
def cfgPing : JVal :=
  .dict [("aliases", .list [.str "ping"]),
         ("response", .dict [("type", .str "simple"), ("content", .str "pong")])]

/-- The alias table holding exactly the `ping` definition. -/
def tablePing : AliasTable := [("ping", [cfgPing])]

/-- Client configuration: marker `?`, administrator id 1, and the `ping`
definition as the command source. -/
def cfg0 : Cfg := ⟨"?", [1], [cfgPing]⟩

/-- C9: the claim says `utilities.get_default(names)(mapping)` returns the
mapping's values with `None` substituted for absent keys — a single value
for one name — and never raises. The code's single-name branch executes
`items.get(item, None)` on the argument *tuple*, which has no `get`
attribute, so `get_default` with exactly one name raises `AttributeError`
before a getter is even returned. -/
theorem C9_get_default_single_name_raises :
    get_default ["type"] = PRes.exn PyErr.attributeError := rfl

/-- A live table holding an ordinary alias besides `reload` (the state in
which the claimed lockdown behaviour would have to act). -/
def tableLock : AliasTable := [("ping", [cfgPing]), ("reload", [cfgPing])]

/-- C5: the claim says an administrator's lockdown removes every alias
except `reload` and returns success. The loop body calls
`self.command_lists.remove(k)`, but dicts have no `remove` attribute:
as soon as the table holds any key other than `"reload"` the action raises
`AttributeError`, leaving the table unchanged and returning no verdict. -/
theorem C5_lockdown_raises_instead_of_pruning :
    action_lockdown cfg0 tableLock (msgOf "?lockdown" ctxAdmin) =
      ⟨tableLock, [], [], false, PRes.exn PyErr.attributeError⟩ := rfl

/-- An action whose name matches no `action_*` method of the client. -/
def actBogus : JVal := .dict [("name", .str "frobnicate"), ("args", .dict [])]

/-- A following action that, if executed, would deliver the denial embed
(observable evidence of whether the loop continued). -/
def actAfter : JVal := .dict [("name", .str "_noPermission"), ("args", .dict [])]

/-- C4: the claim says an action name with no registered handler invokes the
default no-such-action handler (log an error, return failure), the verdict
aggregates to false, every other action still executes and no exception
escapes. The dispatch is
`getattr(self, function_name, "action__no_such_action")(action_key, msg, args)`
— the `getattr` default is the *string* naming the handler, not the handler,
so an unmatched name calls a string and raises `TypeError`: the loop aborts,
the following action never runs (no send occurs), and there is no verdict. -/
theorem C4_unknown_action_raises_type_error :
    cmd_execute_actions cfg0 tablePing (msgOf "?x" ctxAdmin)
        (.list [actBogus, actAfter]) =
      ⟨tablePing, [], [], false, PRes.exn PyErr.typeError⟩ := rfl

/-- C2: the claim describes the respond/acknowledge contract once exactly
one candidate resolves. Dispatching `?ping` against the `ping` definition
(no `resolve` tree, so the spec's intent is that its single candidate
resolves) never reaches that state: `cmd_find_correct` evaluates
`cmd_resolve_context`, whose first statement calls the single-name
`get_default("resolve")`, raising `AttributeError`. The handler aborts with
no response sent and the invocation never deleted. -/
theorem C2_resolution_raises_before_respond_ack :
    on_message cfg0 E0 tablePing (msgOf "?ping" ctxUser) =
      ⟨tablePing, [], [], false, false, some PyErr.attributeError⟩ := rfl

/-- A second definition under alias `go`, with a structurally distinct
`resolve` tree (a role leaf), so that two candidates coexist legally. -/
def cfgGoStaff : JVal :=
  .dict [("aliases", .list [.str "go"]),
         ("resolve", .dict [("type", .str "role"), ("cmp", .str "equals"),
                            ("name", .str "staff")]),
         ("response", .dict [("type", .str "simple"), ("content", .str "go2")])]

/-- A first definition under alias `go` with no `resolve` tree. -/
def cfgGoAll : JVal :=
  .dict [("aliases", .list [.str "go"]),
         ("response", .dict [("type", .str "simple"), ("content", .str "go1")])]

/-- The alias table holding both `go` candidates. -/
def tableGo : AliasTable := [("go", [cfgGoAll, cfgGoStaff])]

/-- C3: the claim says an invocation matched by two or more candidates logs
an error, sends exactly one generic failure notice, runs no actions and is
not acknowledged. Dispatching `?go` against two candidates crashes earlier:
filtering the first candidate through `cmd_resolve_context` raises
`AttributeError` from the single-name `get_default("resolve")`, so the
ambiguity branch is unreachable, nothing is logged and no notice is sent
(and were filtering repaired, the notice itself calls `msg.send`, an
attribute `discord.Message` does not have). -/
theorem C3_ambiguous_dispatch_raises_without_notice :
    on_message cfg0 E0 tableGo (msgOf "?go" ctxUser) =
      ⟨tableGo, [], [], false, false, some PyErr.attributeError⟩ := rfl

/-- A gated definition under alias `secret`, guarded by a role leaf
requiring the `staff` role (which `ctxUser` does not hold). -/
def cfgSecret : JVal :=
  .dict [("aliases", .list [.str "secret"]),
         ("resolve", .dict [("type", .str "role"), ("cmp", .str "equals"),
                            ("name", .str "staff")]),
         ("response", .dict [("type", .str "simple"), ("content", .str "ssh")])]

/-- The alias table holding only the gated `secret` definition. -/
def tableSecret : AliasTable := [("secret", [cfgSecret])]

/-- C7: the claim says a known alias with zero accepting candidates is
observably identical to an unrecognized alias — no response, no
acknowledgement, and no escaping exception in either case. An unrecognized
alias indeed returns silently, but a known alias never reaches the
zero-candidate branch: filtering raises `AttributeError` from the
single-name `get_default("resolve")`, so one case returns cleanly while the
other escapes with an exception. -/
theorem C7_zero_candidates_raises_unknown_is_silent :
    on_message cfg0 E0 tableSecret (msgOf "?nosuch" ctxUser) =
        ⟨tableSecret, [], [], false, false, none⟩ ∧
    on_message cfg0 E0 tableSecret (msgOf "?secret" ctxUser) =
        ⟨tableSecret, [], [], false, false, some PyErr.attributeError⟩ :=
  ⟨rfl, rfl⟩

/-- C8: an invalid regular-expression pattern in a location or role leaf
with a regex comparator (`expr`/`like`/`regex`) makes the leaf resolver
return `False` instead of raising: the location block logs either the
invalid pattern or an unknown scope, and the role block logs the invalid
pattern whenever the issuer holds at least one role (with no roles the
`any(...)` generator never evaluates `re.search`, so no error arises and
nothing is logged). -/
theorem C8_invalid_regex_fails_closed (E : RegexEngine) (ctx : Ctx)
    (scope c pat : String) (hc : c = "expr" ∨ c = "like" ∨ c = "regex")
    (hv : E.valid pat = false) :
    ((cmd_resolve_block_location E ctx
        (.dict [("scope", .str scope), ("cmp", .str c), ("name", .str pat)])).val
        = PRes.ok false ∧
     (cmd_resolve_block_location E ctx
        (.dict [("scope", .str scope), ("cmp", .str c), ("name", .str pat)])).logs
        ≠ []) ∧
    ((cmd_resolve_block_role E ctx
        (.dict [("cmp", .str c), ("name", .str pat)])).val = PRes.ok false ∧
     (ctx.roles ≠ [] →
      (cmd_resolve_block_role E ctx
        (.dict [("cmp", .str c), ("name", .str pat)])).logs ≠ [])) := by
  constructor
  · rcases hc with rfl | rfl | rfl <;>
    · by_cases h1 : pyLower scope = "category"
      · simp [cmd_resolve_block_location, get_default, pyGetAll, pyGet, dictGet, h1, hv]
      · by_cases h2 : pyLower scope = "channel"
        · simp [cmd_resolve_block_location, get_default, pyGetAll, pyGet, dictGet,
            h1, h2, hv]
        · by_cases h3 : pyLower scope = "server"
          · simp [cmd_resolve_block_location, get_default, pyGetAll, pyGet, dictGet,
              h1, h2, h3, hv]
          · simp [cmd_resolve_block_location, get_default, pyGetAll, pyGet, dictGet,
              h1, h2, h3, hv]
  · rcases hc with rfl | rfl | rfl <;>
    · cases h : ctx.roles with
      | nil =>
        simp [cmd_resolve_block_role, get_default, pyGetAll, pyGet, dictGet, h, hv]
      | cons r rs =>
        simp [cmd_resolve_block_role, get_default, pyGetAll, pyGet, dictGet, h, hv]

/-- Witness for C8 at a concrete engine, context and leaf: comparator
`regex`, the invalid pattern `(`, scope `channel`, an issuer with one
role. -/
theorem C8_invalid_regex_fails_closed_witness :
    ((cmd_resolve_block_location E0 ctxUser
        (.dict [("scope", .str "channel"), ("cmp", .str "regex"),
                ("name", .str "(")])).val = PRes.ok false ∧
     (cmd_resolve_block_location E0 ctxUser
        (.dict [("scope", .str "channel"), ("cmp", .str "regex"),
                ("name", .str "(")])).logs ≠ []) ∧
    ((cmd_resolve_block_role E0 ctxUser
        (.dict [("cmp", .str "regex"), ("name", .str "(")])).val = PRes.ok false ∧
     (ctxUser.roles ≠ [] →
      (cmd_resolve_block_role E0 ctxUser
        (.dict [("cmp", .str "regex"), ("name", .str "(")])).logs ≠ [])) :=
  C8_invalid_regex_fails_closed E0 ctxUser "channel" "regex" "("
    (Or.inr (Or.inr rfl)) rfl

/-- The PolicyNode JSON shape for an `and` combinator over children. -/
def mkAnd (cs : List JVal) : JVal := .dict [("and", .list cs)]

/-- The PolicyNode JSON shape for an `or` combinator over children. -/
def mkOr (cs : List JVal) : JVal := .dict [("or", .list cs)]

/-- The PolicyNode JSON shape for a `not` combinator over children. -/
def mkNot (cs : List JVal) : JVal := .dict [("not", .list cs)]

/-- C6 counterexample: the claim says `resolve(C, And([])) == true` and
`resolve(C, Or([])) == false`. An empty child list is falsy, so neither
node is recognized as carrying a combinator; both fall through to leaf
handling, where the single-name `get_default("type")` raises
`AttributeError` — resolution of either node raises instead of returning a
boolean, so in particular `And([])` does not evaluate to `true`. -/
theorem C6_empty_combinators_raise :
    (cmd_resolve_recursive E0 ctxUser (mkAnd []) none).val
        = PRes.exn PyErr.attributeError ∧
    (cmd_resolve_recursive E0 ctxUser (mkOr []) none).val
        = PRes.exn PyErr.attributeError := by
  constructor <;>
    simp [cmd_resolve_recursive, mkAnd, mkOr, get_default, pyGetAll, pyGet,
      dictGet, truthy]

/-- C6 amended: whenever resolving `n` returns a boolean verdict `b`,
resolving `Not([n])` returns `!b` (the one-child NOR is plain negation);
but `And([])` and `Or([])` are not recognized as combinators — the empty
child list is falsy, both nodes fall through to leaf handling, and
resolution raises `AttributeError` from the single-name `get_default`
instead of returning `true` respectively `false`. -/
theorem C6_not_law_and_empty_combinators :
    (∀ (E : RegexEngine) (ctx : Ctx) (n : JVal) (b : Bool),
       (cmd_resolve_recursive E ctx n none).val = PRes.ok b →
       (cmd_resolve_recursive E ctx (mkNot [n]) none).val = PRes.ok (!b)) ∧
    (∀ (E : RegexEngine) (ctx : Ctx),
       (cmd_resolve_recursive E ctx (mkAnd []) none).val
         = PRes.exn PyErr.attributeError) ∧
    (∀ (E : RegexEngine) (ctx : Ctx),
       (cmd_resolve_recursive E ctx (mkOr []) none).val
         = PRes.exn PyErr.attributeError) := by
  refine ⟨?_, ?_, ?_⟩
  · intro E ctx n b h
    rcases hr : cmd_resolve_recursive E ctx n none with ⟨l, v⟩
    rw [hr] at h
    have hv : v = PRes.ok b := h
    subst hv
    cases b <;>
      simp [cmd_resolve_recursive, mkNot, get_default, pyGetAll, pyGet,
        dictGet, truthy, resolveAny, hr]
  · intro E ctx
    simp [cmd_resolve_recursive, mkAnd, get_default, pyGetAll, pyGet,
      dictGet, truthy]
  · intro E ctx
    simp [cmd_resolve_recursive, mkOr, get_default, pyGetAll, pyGet,
      dictGet, truthy]

/-- Witness for the amended C6: a bare list is not a combinator node and
resolves to `false` (logged unknown list operator), so its one-child `Not`
resolves to `true`; the empty combinators raise at the concrete engine and
context as well. -/
theorem C6_not_law_and_empty_combinators_witness :
    (cmd_resolve_recursive E0 ctxUser (mkNot [JVal.list []]) none).val
        = PRes.ok true ∧
    (cmd_resolve_recursive E0 ctxUser (mkAnd []) none).val
        = PRes.exn PyErr.attributeError ∧
    (cmd_resolve_recursive E0 ctxUser (mkOr []) none).val
        = PRes.exn PyErr.attributeError := by
  refine ⟨?_, C6_not_law_and_empty_combinators.2.1 E0 ctxUser,
    C6_not_law_and_empty_combinators.2.2 E0 ctxUser⟩
  have h := C6_not_law_and_empty_combinators.1 E0 ctxUser (JVal.list []) false
    (by simp [cmd_resolve_recursive])
  simpa using h

/-- A definition under alias `dup` with no `resolve` tree. -/
def cfgDup1 : JVal :=
  .dict [("aliases", .list [.str "dup"]),
         ("response", .dict [("type", .str "simple"), ("content", .str "a")])]

/-- A second definition under alias `dup`, also without a `resolve` tree —
a true collision with the first (both trees absent). -/
def cfgDup2 : JVal :=
  .dict [("aliases", .list [.str "dup"]),
         ("response", .dict [("type", .str "simple"), ("content", .str "b")])]

/-- A definition source (one JSON file holding a list of two definitions)
that contains a true collision. -/
def cfgCollide : Cfg := ⟨"?", [1], [.list [cfgDup1, cfgDup2]]⟩

/-- A previously live table, distinct from anything the colliding source
builds. -/
def oldTable : AliasTable := [("old", [cfgPing])]

/-- C1 counterexample: the claim says a true collision makes the load fail,
the new table is not activated and the previously live table stays live and
unchanged. Scanning the colliding source completes without an exception,
merely setting the collision flag (the duplicate definition is dropped); an
administrator reload then installs that newly built table and returns
`True`, and the previously live table is gone. -/
theorem C1_collision_still_replaces_table :
    create_command_library cfgCollide.files
        = (⟨[("dup", [cfgDup1])], true⟩, none) ∧
    (action_reload cfgCollide oldTable (msgOf "?reload" ctxAdmin)).table
        = [("dup", [cfgDup1])] ∧
    (action_reload cfgCollide oldTable (msgOf "?reload" ctxAdmin)).ret
        = PRes.ok (JVal.bool true) ∧
    oldTable ≠ [("dup", [cfgDup1])] := by
  refine ⟨rfl, rfl, rfl, ?_⟩
  simp [oldTable]

/-- C1 amended: a collision is flagged and logged at fatal level, but the
load does not fail — whenever the scan raises no exception, an
administrator reload unconditionally activates the newly built table
(collision or not), reports success, and discards the previous table; the
old table is never restored. -/
theorem C1_reload_installs_new_table_unconditionally :
    ∀ (cfg : Cfg) (old : AliasTable) (msg : Msg),
      cfg.administrators.contains msg.ctx.authorId = true →
      (create_command_library cfg.files).2 = none →
      action_reload cfg old msg =
        ⟨(create_command_library cfg.files).1.table, [],
         ["Reloading the command library while live!",
          libraryLog (create_command_library cfg.files).1], false,
         PRes.ok (JVal.bool true)⟩ := by
  intro cfg old msg h hnone
  have hm : msg.ctx.authorId ∈ cfg.administrators := by simpa using h
  rcases hE : create_command_library cfg.files with ⟨bst, err⟩
  have herr : err = none := by rw [hE] at hnone; exact hnone
  subst herr
  simp [action_reload, hm, hE]

/-- Witness for the amended C1 at a concrete collision-free source: the
reload by administrator 1 installs the freshly scanned `ping` table. -/
theorem C1_reload_installs_new_table_unconditionally_witness :
    action_reload cfg0 oldTable (msgOf "?reload" ctxAdmin) =
      ⟨[("ping", [cfgPing])], [],
       ["Reloading the command library while live!",
        "Loaded commands successfully."], false,
       PRes.ok (JVal.bool true)⟩ := by
  rw [C1_reload_installs_new_table_unconditionally cfg0 oldTable
    (msgOf "?reload" ctxAdmin) rfl rfl]
  rfl

/-- Lowercasing is idempotent on characters: a character produced by
`Char.toLower` is no longer in the upper-case range. -/
theorem charToLower_toLower (c : Char) : c.toLower.toLower = c.toLower := by
  unfold Char.toLower
  by_cases h : c.toNat ≥ 65 ∧ c.toNat ≤ 90
  · rw [if_pos h]
    have hval : (c.toNat + 32).isValidChar := Or.inl (by omega)
    have ht : (Char.ofNat (c.toNat + 32)).toNat = c.toNat + 32 := by
      rw [Char.ofNat, dif_pos hval]; rfl
    rw [if_neg]
    rw [ht]
    omega
  · rw [if_neg h, if_neg h]

/-- Lowercasing is idempotent on strings. -/
theorem pyLower_pyLower (s : String) : pyLower (pyLower s) = pyLower s := by
  have hl : ∀ l : List Char, (l.map Char.toLower).map Char.toLower
      = l.map Char.toLower := by
    intro l
    induction l with
    | nil => rfl
    | cons c cs ih => simp [charToLower_toLower, ih]
  simp [pyLower, hl]

/-- A string all of whose characters are fixed by lowercasing is its own
lowercase form. -/
theorem pyLower_eq_self_of (t : String)
    (h : ∀ c ∈ t.data, c.toLower = c) : pyLower t = t := by
  cases t with
  | mk l =>
    simp only [pyLower]
    congr 1
    induction l with
    | nil => rfl
    | cons c cs ih =>
      simp only [List.map_cons]
      rw [h c (by simp), ih (fun d hd => h d (by simp [hd]))]

/-- An exception-stopping fold preserves any invariant its step preserves. -/
theorem foldE_preserve {σ α : Type} (P : σ → Prop)
    (f : σ → α → σ × Option PyErr) (h : ∀ s a, P s → P (f s a).1) :
    ∀ (l : List α) (s : σ), P s → P ((foldE f s l).1) := by
  intro l
  induction l with
  | nil => intro s hs; simpa [foldE] using hs
  | cons a as ih =>
    intro s hs
    have h1 : P (f s a).1 := h s a hs
    rcases hf : f s a with ⟨s', e⟩
    rw [hf] at h1
    cases e with
    | none => simpa [foldE, hf] using ih s' h1
    | some e0 => simpa [foldE, hf] using h1

/-- Every key of the table is fixed by lowercasing. -/
def lowKeys (t : AliasTable) : Prop :=
  ∀ kv ∈ t, pyLower kv.1 = kv.1

/-- Replacing one alias's candidate list keeps the key set. -/
theorem lowKeys_updateTable (t : AliasTable) (k : String) (v : List JVal)
    (h : lowKeys t) : lowKeys (updateTable t k v) := by
  intro kv hkv
  simp only [updateTable, List.mem_map] at hkv
  obtain ⟨kv0, h0, hkv0⟩ := hkv
  have h1 : kv.1 = kv0.1 := by
    by_cases hc : kv0.1 == k
    · rw [if_pos hc] at hkv0; rw [← hkv0]
    · rw [if_neg hc] at hkv0; rw [← hkv0]
  rw [h1]
  exact h kv0 h0

/-- One alias insertion preserves lowercase keys: fresh keys are inserted
already lowercased, appends keep the key set, collisions and raising paths
leave the table alone. -/
theorem insertAlias_lowKeys (st : BuildSt) (config a : JVal)
    (h : lowKeys st.table) : lowKeys (insertAlias st config a).1.table := by
  cases a with
  | str s =>
    cases hl : lookupTable st.table (pyLower s) with
    | none =>
      simp only [insertAlias, hl]
      intro kv hkv
      rcases List.mem_append.mp hkv with h1 | h1
      · exact h kv h1
      · rcases List.mem_singleton.mp h1 with rfl
        exact pyLower_pyLower s
    | some existing =>
      cases hg : pyGet config "resolve" with
      | exn e => simp only [insertAlias, hl, hg]; exact h
      | ok newR =>
        cases ha : anyJeqResolve existing newR with
        | exn e => simp only [insertAlias, hl, hg, ha]; exact h
        | ok b =>
          cases b
          · simp only [insertAlias, hl, hg, ha]
            exact lowKeys_updateTable _ _ _ h
          · simp only [insertAlias, hl, hg, ha]; exact h
  | null => exact h
  | bool b => exact h
  | num n => exact h
  | list xs => exact h
  | dict xs => exact h

/-- One definition's processing preserves lowercase keys. -/
theorem processConfig_lowKeys (st : BuildSt) (config : JVal)
    (h : lowKeys st.table) : lowKeys (processConfig st config).1.table := by
  cases hs : pySub config "aliases" with
  | exn e => simp only [processConfig, hs]; exact h
  | ok aliases =>
    cases hi : pyIter aliases with
    | exn e => simp only [processConfig, hs, hi]; exact h
    | ok as =>
      simp only [processConfig, hs, hi]
      exact foldE_preserve (fun bst => lowKeys bst.table) _
        (fun s a hsa => insertAlias_lowKeys s config a hsa) as st h

/-- One file's processing preserves lowercase keys. -/
theorem processFile_lowKeys (st : BuildSt) (v : JVal)
    (h : lowKeys st.table) : lowKeys (processFile st v).1.table := by
  cases v with
  | dict xs => exact processConfig_lowKeys st (.dict xs) h
  | null => exact h
  | bool b => exact h
  | num n => exact h
  | str s =>
    simp only [processFile, pyIter]
    exact foldE_preserve (fun bst => lowKeys bst.table) _
      processConfig_lowKeys _ st h
  | list xs =>
    simp only [processFile, pyIter]
    exact foldE_preserve (fun bst => lowKeys bst.table) _
      processConfig_lowKeys xs st h

/-- Characters of any token produced by the whitespace tokenizer come from
the input or from the accumulator. -/
theorem splitWsAux_chars (l : List Char) :
    ∀ (acc t : List Char), t ∈ splitWsAux l acc → ∀ c ∈ t, c ∈ l ∨ c ∈ acc := by
  induction l with
  | nil =>
    intro acc t ht c hc
    simp only [splitWsAux] at ht
    by_cases he : acc.isEmpty
    · rw [if_pos he] at ht; cases ht
    · rw [if_neg he] at ht
      rcases List.mem_singleton.mp ht with rfl
      exact Or.inr hc
  | cons x xs ih =>
    intro acc t ht c hc
    simp only [splitWsAux] at ht
    by_cases hw : x.isWhitespace
    · rw [if_pos hw] at ht
      by_cases he : acc.isEmpty
      · rw [if_pos he] at ht
        rcases ih [] t ht c hc with h1 | h1
        · exact Or.inl (List.mem_cons_of_mem x h1)
        · cases h1
      · rw [if_neg he] at ht
        rcases List.mem_cons.mp ht with rfl | h1
        · exact Or.inr hc
        · rcases ih [] t h1 c hc with h2 | h2
          · exact Or.inl (List.mem_cons_of_mem x h2)
          · cases h2
    · rw [if_neg hw] at ht
      rcases ih (acc ++ [x]) t ht c hc with h1 | h1
      · exact Or.inl (List.mem_cons_of_mem x h1)
      · rcases List.mem_append.mp h1 with h2 | h2
        · exact Or.inr h2
        · rcases List.mem_singleton.mp h2 with rfl
          exact Or.inl (List.mem_cons_self _ _)

/-- C10: every key of a table built by `create_command_library` is a
lowercase string (fixed by lowercasing) — this covers initial load and
reload, which install exactly such a table; `action_lockdown` never changes
the table (its admin branch either raises before removing anything or
completes without removing anything), so the invariant survives it; and the
dispatch parse derives the command token from the lowercased message
content, so every token it looks up is lowercase. -/
theorem C10_alias_keys_lowercase :
    (∀ (files : List JVal) (kv : String × List JVal),
        kv ∈ (create_command_library files).1.table → pyLower kv.1 = kv.1) ∧
    (∀ (cfg : Cfg) (table : AliasTable) (msg : Msg),
        (action_lockdown cfg table msg).table = table) ∧
    (∀ (pfxS content t : String),
        t ∈ parse_cmd_array pfxS content → pyLower t = t) := by
  refine ⟨?_, ?_, ?_⟩
  · intro files kv hkv
    have hload : lowKeys (create_command_library files).1.table :=
      foldE_preserve (fun bst : BuildSt => lowKeys bst.table) _
        processFile_lowKeys files (⟨[], false⟩ : BuildSt)
        (by intro kv0 h0; cases h0)
    exact hload kv hkv
  · intro cfg table msg
    simp only [action_lockdown]
    split
    · rfl
    · cases table.find? (fun kv => kv.1 != "reload") <;> rfl
  · intro pfxS content t ht
    simp only [parse_cmd_array, pySplit, List.mem_map] at ht
    obtain ⟨cs, hcs, rfl⟩ := ht
    apply pyLower_eq_self_of
    intro c hc
    have h1 : c ∈ (pyRemoveMarker (pyLower content) pfxS).data := by
      rcases splitWsAux_chars _ [] cs hcs c hc with h1 | h1
      · exact h1
      · cases h1
    have h2 : c ∈ (pyLower content).data := by
      revert h1
      simp only [pyRemoveMarker]
      split
      · intro h1; exact List.mem_of_mem_drop h1
      · exact id
    have h3 : ∃ d ∈ content.data, Char.toLower d = c := by
      simpa [pyLower, List.mem_map] using h2
    obtain ⟨d, _, rfl⟩ := h3
    exact charToLower_toLower d

/-- Witness for C10 at concrete inputs: the key built from alias `ping` is
lowercase, a lockdown leaves the concrete table exactly as it was, and the
token parsed from `?PING hello` is lowercase. -/
theorem C10_alias_keys_lowercase_witness :
    pyLower "ping" = "ping" ∧
    (action_lockdown cfg0 tableLock (msgOf "?lockdown" ctxUser)).table
        = tableLock ∧
    pyLower "hello" = "hello" :=
  ⟨C10_alias_keys_lowercase.1 [cfgPing] ("ping", [cfgPing]) (List.Mem.head _),
   C10_alias_keys_lowercase.2.1 cfg0 tableLock (msgOf "?lockdown" ctxUser),
   C10_alias_keys_lowercase.2.2 "?" "?PING hello" "hello"
     (List.Mem.tail _ (List.Mem.head _))⟩
